import Mathlib

/-!
Verification of the Fundo mutual-aid fund backend core:
the membership eligibility / class-upgrade engine
(`backend/services/membership.py`) and the repayment plan calculator
(`backend/services/repayment_calculator.py`).

Conventions of the embedding:
* Monetary values are rationals (ℚ); Python's `round(x, 2)` is `round2`.
* Calendar dates are `Date` records; `dateutil.relativedelta(months=k)`
  is `Date.addMonths` (month-level increment, clamping the day to the
  length of the target month); Python `date` comparison is `Date.before`
  (chronological order); `(a - b).days` is `a.toDays - b.toDays` with
  `toDays` the standard civil (proleptic Gregorian) day number.
* Python dicts returned to callers are either records (fixed key sets)
  or association lists `List (String × PyVal)` when key presence matters.
* Database rows live in a `MembershipState`; each service call is a pure
  function from state to (outcome, state).
-/

/-! ## Calendar dates -/

/-- A calendar date, mirroring Python `datetime.date`. -/
structure Date where
  year : Int
  month : Nat
  day : Nat
deriving DecidableEq, Repr

/-- Gregorian leap-year test. -/
def Date.isLeap (y : Int) : Bool :=
  (y % 4 == 0 && y % 100 != 0) || (y % 400 == 0)

/-- Number of days in a month of the Gregorian calendar. -/
def Date.daysInMonth (y : Int) (m : Nat) : Nat :=
  if m = 2 then (if Date.isLeap y then 29 else 28)
  else if m = 4 ∨ m = 6 ∨ m = 9 ∨ m = 11 then 30
  else 31

/-- Zero-based linear month index (year 0 month 1 ↦ 0). -/
def Date.monthIndex (d : Date) : Int :=
  d.year * 12 + (d.month : Int) - 1

/-- `dateutil.relativedelta(months := k)` addition: advance `k` calendar
months, keeping the day-of-month and clamping it to the length of the
target month when needed. -/
def Date.addMonths (d : Date) (k : Nat) : Date :=
  let t : Int := d.monthIndex + k
  let y : Int := t / 12
  let m : Nat := (t % 12).toNat + 1
  { year := y, month := m, day := min d.day (Date.daysInMonth y m) }

/-- Civil day number (days since 1970-01-01), the standard
`days_from_civil` computation; mirrors differences of Python `date`s. -/
def Date.toDays (d : Date) : Int :=
  let y : Int := if d.month ≤ 2 then d.year - 1 else d.year
  let era : Int := (if 0 ≤ y then y else y - 399) / 400
  let yoe : Int := y - era * 400
  let mp : Int := ((d.month : Int) + 9) % 12
  let doy : Int := (153 * mp + 2) / 5 + (d.day : Int) - 1
  let doe : Int := yoe * 365 + yoe / 4 - yoe / 100 + doy
  era * 146097 + doe - 719468

/-- Chronological strict order on dates (Python `date.__lt__`). -/
def Date.before (a b : Date) : Bool :=
  a.monthIndex < b.monthIndex || (a.monthIndex == b.monthIndex && a.day < b.day)

/-! ## Rounding -/

/-- Python `round(q, 2)` modelled on ℚ: round to the nearest multiple of
1/100 (`round` is Mathlib's round-half-up). -/
def round2 (q : ℚ) : ℚ :=
  ((round (q * 100) : ℤ) : ℚ) / 100

/-! ## Repayment plan calculator
(`backend/services/repayment_calculator.py`) -/

/-- One entry of the generated installment schedule (the dicts appended
to `schedule` in `calculate_repayment_plan`, also the input shape read by
`check_overdue_installments`). -/
structure InstallmentRec where
  installment_number : Nat
  amount : ℚ
  due_date : Date
  status : String
deriving DecidableEq, Repr

/-- The dict returned by `calculate_repayment_plan`. -/
structure RepaymentPlan where
  approved_amount : ℚ
  administrative_fee : ℚ
  total_to_repay : ℚ
  installments : Nat
  installment_amount : ℚ
  schedule : List InstallmentRec
  first_due_date : Date
  last_due_date : Date
deriving DecidableEq, Repr

/-- `RepaymentCalculator.calculate_repayment_plan(approved_amount,
installments)`; `now` is `datetime.now()` (only its date part reaches the
output).  A raised `ValueError` is the `.error` branch. -/
def RepaymentCalculator.calculate_repayment_plan
    (approved_amount : ℚ) (installments : Nat) (now : Date) :
    Except String RepaymentPlan :=
  if installments < 1 || installments > 12 then
    .error "Installments must be between 1 and 12"
  else
    let total_to_repay := approved_amount * 1.02
    let installment_amount := total_to_repay / installments
    let schedule : List InstallmentRec := (List.range installments).map (fun j =>
      { installment_number := j + 1
        amount := round2 installment_amount
        due_date := now.addMonths (j + 1)
        status := "pending" })
    .ok {
      approved_amount := approved_amount
      administrative_fee := approved_amount * 0.02
      total_to_repay := round2 total_to_repay
      installments := installments
      installment_amount := round2 installment_amount
      schedule := schedule
      first_due_date := ((schedule.head?).map (·.due_date)).getD now
      last_due_date := ((schedule.getLast?).map (·.due_date)).getD now }

/-- One annotated entry of the overdue report. -/
structure OverdueEntry where
  installment_number : Nat
  amount : ℚ
  due_date : Date
  days_overdue : Int
deriving DecidableEq, Repr

/-- The dict returned by `check_overdue_installments`. -/
structure OverdueReport where
  has_overdue : Bool
  overdue_count : Nat
  overdue_installments : List OverdueEntry
  total_overdue_amount : ℚ
deriving DecidableEq, Repr

/-- `RepaymentCalculator.check_overdue_installments(installments)`;
`today` is `datetime.now().date()`. -/
def RepaymentCalculator.check_overdue_installments
    (installments : List InstallmentRec) (today : Date) : OverdueReport :=
  let overdue : List OverdueEntry :=
    (installments.filter
        (fun inst => inst.status == "pending" && Date.before inst.due_date today)).map
      (fun inst =>
        { installment_number := inst.installment_number
          amount := inst.amount
          due_date := inst.due_date
          days_overdue := today.toDays - inst.due_date.toDays })
  { has_overdue := overdue.length > 0
    overdue_count := overdue.length
    overdue_installments := overdue
    total_overdue_amount := (overdue.map (·.amount)).sum }

/-! ## Membership service state
(`backend/services/membership.py`, `backend/services/class_upgrades.py`) -/

/-- Modelled from the spec: `ProfilesService` (the spec's Member Ledger)
is not under src/, so the member-profile row shape is taken from the
spec's `MemberProfile` together with the attributes `membership.py`
actually reads (`join_fee_paid`, `paid_months_count`, `months_in_arrears`,
`membership_status`, `membership_class`, `id`). `Option` fields model
nullable columns. -/
structure Profile where
  id : Nat
  user_id : String
  membership_class : String
  join_fee_paid : Bool
  paid_months_count : Option Nat
  months_in_arrears : Option Nat
  membership_status : String
  updated_at : String
deriving DecidableEq, Repr

/-- A `class_upgrades` row (`backend/models/class_upgrades.py`). -/
structure Class_upgrades where
  id : Nat
  user_id : String
  profile_id : Nat
  from_class : String
  to_class : String
  status : String
  payments_in_new_class : Option Nat
  requested_at : String
  activated_at : Option String
deriving DecidableEq, Repr

/-- The database rows the membership service touches. -/
structure MembershipState where
  profiles : List Profile
  upgrades : List Class_upgrades
deriving DecidableEq, Repr

/-- A Python dict value as returned by `check_eligibility`. -/
inductive PyVal where
  | pbool (b : Bool)
  | pstr (s : String)
  | pnum (q : ℚ)
  | pnull
deriving DecidableEq, Repr

/-- The per-class dict of `MembershipService.get_class_limits`. -/
structure ClassInfo where
  monthly : ℚ
  limit : ℚ
deriving DecidableEq, Repr

/-- `MembershipService.get_class_limits`: the fixed lookup table with the
`.get(class_type, {"monthly": 0, "limit": 0})` default. -/
def MembershipService.get_class_limits (class_type : String) : ClassInfo :=
  if class_type = "A" then { monthly := 25, limit := 2000 }
  else if class_type = "B" then { monthly := 50, limit := 3000 }
  else if class_type = "C" then { monthly := 75, limit := 5000 }
  else if class_type = "D" then { monthly := 100, limit := 10000 }
  else { monthly := 0, limit := 0 }

/-- Modelled from the spec: `ProfilesService.get_list(user_id=u, limit=1)`
(the Member Ledger's `get_profile_by_member`) is not under src/; it
returns the member's profile rows. -/
def profilesFor (s : MembershipState) (user_id : String) : List Profile :=
  s.profiles.filter (fun p => p.user_id == user_id)

/-- `Class_upgradesService.get_list(user_id=u, query_dict={"status":
"pending"})`: the member's rows whose `status` equals `"pending"`. -/
def pendingFor (s : MembershipState) (user_id : String) : List Class_upgrades :=
  s.upgrades.filter (fun u => u.user_id == user_id && u.status == "pending")

/-- `MembershipService.check_eligibility`, returning the dict as an
association list (key order as in the source). -/
def MembershipService.check_eligibility (s : MembershipState) (user_id : String) :
    List (String × PyVal) :=
  match (profilesFor s user_id).head? with
  | none => [("eligible", .pbool false), ("reason", .pstr "Perfil não encontrado")]
  | some profile =>
    if !profile.join_fee_paid then
      [("eligible", .pbool false), ("reason", .pstr "Taxa de adesão não paga")]
    else if profile.paid_months_count.getD 0 < 6 then
      [("eligible", .pbool false),
       ("reason", .pstr ("Necessário 6 meses pagos consecutivos. Você tem "
          ++ toString (profile.paid_months_count.getD 0) ++ " meses."))]
    else if profile.months_in_arrears.getD 0 > 2 then
      [("eligible", .pbool false),
       ("reason", .pstr "Mais de 2 meses em atraso. Regularize seus pagamentos.")]
    else if profile.membership_status ≠ "active" then
      [("eligible", .pbool false),
       ("reason", .pstr ("Status da conta: " ++ profile.membership_status))]
    else
      let class_info := MembershipService.get_class_limits profile.membership_class
      [("eligible", .pbool true),
       ("class", .pstr profile.membership_class),
       ("limit", .pnum class_info.limit),
       ("paid_months", match profile.paid_months_count with
                       | some n => .pnum n
                       | none => .pnull)]

/-- The typed outcome of a `ValueError` raised by
`MembershipService.request_class_upgrade`, one constructor per distinct
message (the spec's NotFound / InvalidUpgrade / Conflict taxonomy). -/
inductive UpgradeError where
  | notFound
  | invalidUpgrade
  | conflict
deriving DecidableEq, Repr

/-- The success dict of `MembershipService.request_class_upgrade`. -/
structure UpgradeOk where
  success : Bool
  message : String
  upgrade_id : Nat
deriving DecidableEq, Repr

/-- The `class_order` dict in `request_class_upgrade`, with the
`.get(c, 0)` default. -/
def class_order (c : String) : Nat :=
  if c = "A" then 1
  else if c = "B" then 2
  else if c = "C" then 3
  else if c = "D" then 4
  else 0

/-- `MembershipService.request_class_upgrade(user_id, to_class)`.
`now` stands for `datetime.now().strftime(...)`, `new_id` for the
autoincremented id of the created row.  The returned state carries the
persisted rows; the profile update (`ProfilesService.update`, modelled
from the spec's Member Ledger `update_profile`) sets `membership_class`
and `updated_at` on the row matching the profile id and owner. -/
def MembershipService.request_class_upgrade
    (s : MembershipState) (user_id to_class : String) (now : String) (new_id : Nat) :
    Except UpgradeError UpgradeOk × MembershipState :=
  match (profilesFor s user_id).head? with
  | none => (.error .notFound, s)
  | some profile =>
    let from_class := profile.membership_class
    if class_order to_class ≤ class_order from_class then
      (.error .invalidUpgrade, s)
    else if pendingFor s user_id ≠ [] then
      (.error .conflict, s)
    else
      let upgrade : Class_upgrades :=
        { id := new_id
          user_id := user_id
          profile_id := profile.id
          from_class := from_class
          to_class := to_class
          status := "pending"
          payments_in_new_class := some 0
          requested_at := now
          activated_at := none }
      let s1 : MembershipState := { s with upgrades := s.upgrades ++ [upgrade] }
      let s2 : MembershipState := { s1 with profiles := s1.profiles.map (fun p =>
        if p.id == profile.id && p.user_id == user_id then
          { p with membership_class := to_class, updated_at := now }
        else p) }
      (.ok { success := true
             message := "Upgrade de classe " ++ from_class ++ " para " ++ to_class
               ++ " solicitado. O novo limite estará disponível após 3 pagamentos."
             upgrade_id := new_id }, s2)

/-- Outcome of `request_class_upgrade` when the profile-update
persistence fails: either one of the validation `ValueError`s, or the
propagated persistence failure. -/
inductive UpgradeFailOutcome where
  | validation (e : UpgradeError)
  | persistenceFailure
deriving DecidableEq, Repr

/-- Modelled from the spec: `ProfilesService.update` (the Member
Ledger's `update_profile`) is not under src/; per the spec it is a
separate persistence call whose failure propagates to the caller
unchanged.  This definition runs `request_class_upgrade` in the scenario
where that profile update raises: `Class_upgradesService.create` (which
is under src/ and issues `self.db.commit()` of its own) has already
committed the new upgrade row, so the returned state keeps it while the
profile row is untouched. -/
def MembershipService.request_class_upgrade_update_failure
    (s : MembershipState) (user_id to_class : String) (now : String) (new_id : Nat) :
    UpgradeFailOutcome × MembershipState :=
  match (profilesFor s user_id).head? with
  | none => (.validation .notFound, s)
  | some profile =>
    let from_class := profile.membership_class
    if class_order to_class ≤ class_order from_class then
      (.validation .invalidUpgrade, s)
    else if pendingFor s user_id ≠ [] then
      (.validation .conflict, s)
    else
      let upgrade : Class_upgrades :=
        { id := new_id
          user_id := user_id
          profile_id := profile.id
          from_class := from_class
          to_class := to_class
          status := "pending"
          payments_in_new_class := some 0
          requested_at := now
          activated_at := none }
      let s1 : MembershipState := { s with upgrades := s.upgrades ++ [upgrade] }
      (.persistenceFailure, s1)

/-- An `update_data` dict passed to `Class_upgradesService.update` by
`process_monthly_payment`; `none` models an absent key. -/
structure UpgradeFieldPatch where
  payments_in_new_class : Option Nat := none
  status : Option String := none
  activated_at : Option String := none
deriving DecidableEq, Repr

/-- The `setattr` loop of `Class_upgradesService.update`: copy each
present key onto the row (`user_id` is skipped by the service and never
present in these patches). -/
def Class_upgrades.applyPatch (u : Class_upgrades) (p : UpgradeFieldPatch) :
    Class_upgrades :=
  { u with
    payments_in_new_class :=
      match p.payments_in_new_class with
      | some v => some v
      | none => u.payments_in_new_class
    status := p.status.getD u.status
    activated_at :=
      match p.activated_at with
      | some v => some v
      | none => u.activated_at }

/-- `Class_upgradesService.update(obj_id, update_data, user_id)`: patch
the row whose primary key and owner match (ids are unique, being an
autoincremented primary key, so the map touches at most one row). -/
def Class_upgradesService.update
    (s : MembershipState) (obj_id : Nat) (user_id : String) (patch : UpgradeFieldPatch) :
    MembershipState :=
  { s with upgrades := s.upgrades.map (fun u =>
      if u.id == obj_id && u.user_id == user_id then u.applyPatch patch else u) }

/-- The dict returned by `process_monthly_payment`
(`upgrade_activated := false` models the key being absent). -/
structure PaymentOutcome where
  success : Bool
  message : String
  upgrade_activated : Bool := false
deriving DecidableEq, Repr

/-- `MembershipService.process_monthly_payment(user_id)`; `now` stands
for `datetime.now().strftime(...)` at the activation stamp. -/
def MembershipService.process_monthly_payment
    (s : MembershipState) (user_id : String) (now : String) :
    PaymentOutcome × MembershipState :=
  match (profilesFor s user_id).head? with
  | none => ({ success := false, message := "Perfil não encontrado" }, s)
  | some _ =>
    match (pendingFor s user_id).head? with
    | some upgrade =>
      let new_payments := upgrade.payments_in_new_class.getD 0 + 1
      let s1 := Class_upgradesService.update s upgrade.id user_id
        { payments_in_new_class := some new_payments }
      if new_payments ≥ 3 then
        let s2 := Class_upgradesService.update s1 upgrade.id user_id
          { status := some "active", activated_at := some now }
        ({ success := true
           message := "Upgrade para classe " ++ upgrade.to_class
             ++ " ativado! Novo limite disponível."
           upgrade_activated := true }, s2)
      else
        ({ success := true, message := "Pagamento processado com sucesso" }, s1)
    | none => ({ success := true, message := "Pagamento processado com sucesso" }, s)

/-! ## Sample rows and states (used by witnesses and counterexamples) -/

/-- A class-A member in good standing. -/
def profileA : Profile :=
  { id := 1, user_id := "u1", membership_class := "A",
    join_fee_paid := true, paid_months_count := some 7,
    months_in_arrears := some 0, membership_status := "active",
    updated_at := "t0" }

/-- A member in good standing, class A, no upgrades on file. -/
def stA : MembershipState := { profiles := [profileA], upgrades := [] }

/-- A pending A→B upgrade with no payments counted yet. -/
def upP : Class_upgrades :=
  { id := 5, user_id := "u1", profile_id := 1, from_class := "A",
    to_class := "B", status := "pending", payments_in_new_class := some 0,
    requested_at := "t1", activated_at := none }

/-- Same member as `stA` but with the pending upgrade `upP` on file. -/
def stPend : MembershipState :=
  { profiles := stA.profiles, upgrades := [upP] }

/-- A class-C member in good standing. -/
def profileC : Profile :=
  { id := 2, user_id := "u2", membership_class := "C",
    join_fee_paid := true, paid_months_count := some 9,
    months_in_arrears := some 0, membership_status := "active",
    updated_at := "t0" }

/-- A member of class C in good standing (for downgrade tests). -/
def stC : MembershipState := { profiles := [profileC], upgrades := [] }

/-- A class-D member whose join fee is unpaid but is otherwise flawless. -/
def profileNoFee : Profile :=
  { id := 3, user_id := "u3", membership_class := "D",
    join_fee_paid := false, paid_months_count := some 24,
    months_in_arrears := some 0, membership_status := "active",
    updated_at := "t0" }

/-- A member whose join fee is unpaid but is otherwise flawless. -/
def stNoFee : MembershipState := { profiles := [profileNoFee], upgrades := [] }

/-- A state holding no rows at all. -/
def stEmpty : MembershipState := { profiles := [], upgrades := [] }

/-- A fixed calendar date used where a concrete `datetime.now()` is needed. -/
def sampleDate : Date := { year := 2024, month := 1, day := 15 }

/-- The overdue-check example of the spec: one `pending` installment due
10 days before `overdueToday` and one due 10 days after it. -/
def overdueToday : Date := { year := 2024, month := 5, day := 20 }

/-- The two installments of the overdue example. -/
def overdueSample : List InstallmentRec :=
  [ { installment_number := 1, amount := 85, due_date := { year := 2024, month := 5, day := 10 },
      status := "pending" },
    { installment_number := 2, amount := 85, due_date := { year := 2024, month := 5, day := 30 },
      status := "pending" } ]

/-- The plan of the spec's worked example:
`calculate_repayment_plan(1000, 12)` issued on `sampleDate`. -/
def planExample : RepaymentPlan :=
  (RepaymentCalculator.calculate_repayment_plan 1000 12 sampleDate).toOption.getD
    { approved_amount := 0, administrative_fee := 0, total_to_repay := 0,
      installments := 0, installment_amount := 0, schedule := [],
      first_due_date := sampleDate, last_due_date := sampleDate }

/-! ## Basic lemmas about the embedding -/

theorem Date.monthIndex_addMonths (d : Date) (k : Nat) :
    (d.addMonths k).monthIndex = d.monthIndex + k := by
  unfold Date.addMonths Date.monthIndex
  simp only
  omega

theorem Date.before_addMonths (d : Date) (j k : Nat) (h : j < k) :
    Date.before (d.addMonths j) (d.addMonths k) = true := by
  unfold Date.before
  rw [Date.monthIndex_addMonths, Date.monthIndex_addMonths]
  simp only [Bool.or_eq_true, decide_eq_true_eq]
  left
  omega

theorem profilesFor_head_user {s : MembershipState} {uid : String} {p : Profile}
    (h : (profilesFor s uid).head? = some p) : p.user_id = uid := by
  have hm : p ∈ profilesFor s uid := by
    cases hl : profilesFor s uid with
    | nil => rw [hl] at h; cases h
    | cons a t =>
      rw [hl] at h
      injection h with h1
      subst h1
      exact List.mem_cons_self _ _
  have h2 := (List.mem_filter.1 hm).2
  simpa using h2

theorem pendingFor_singleton {s : MembershipState} {uid : String} {up : Class_upgrades}
    (h : pendingFor s uid = [up]) :
    up ∈ s.upgrades ∧ up.user_id = uid ∧ up.status = "pending" := by
  have hm : up ∈ pendingFor s uid := by rw [h]; exact List.mem_cons_self up []
  have h2 := List.mem_filter.1 hm
  have h3 := h2.2
  simp only [Bool.and_eq_true, beq_iff_eq] at h3
  exact ⟨h2.1, h3.1, h3.2⟩

theorem Class_upgrades.applyPatch_id (u : Class_upgrades) (p : UpgradeFieldPatch) :
    (u.applyPatch p).id = u.id := by
  unfold Class_upgrades.applyPatch; rfl

theorem Class_upgrades.applyPatch_user_id (u : Class_upgrades) (p : UpgradeFieldPatch) :
    (u.applyPatch p).user_id = u.user_id := by
  unfold Class_upgrades.applyPatch; rfl

theorem Class_upgrades.applyPatch_status_none (u : Class_upgrades)
    (p : UpgradeFieldPatch) (h : p.status = none) :
    (u.applyPatch p).status = u.status := by
  unfold Class_upgrades.applyPatch
  rw [h]
  rfl

/-- An upgrade-row update whose patch leaves `status` alone commutes with
the pending-rows query. -/
theorem pendingFor_update (s : MembershipState) (oid : Nat) (uid : String)
    (patch : UpgradeFieldPatch) (hst : patch.status = none) :
    pendingFor (Class_upgradesService.update s oid uid patch) uid
      = (pendingFor s uid).map
          (fun u => if u.id == oid && u.user_id == uid then u.applyPatch patch else u) := by
  unfold pendingFor Class_upgradesService.update
  simp only
  rw [List.filter_map]
  congr 1
  apply List.filter_congr
  intro x _
  simp only [Function.comp_apply]
  by_cases hx : (x.id == oid && x.user_id == uid) = true
  · rw [if_pos hx]
    rw [Class_upgrades.applyPatch_user_id, Class_upgrades.applyPatch_status_none x patch hst]
  · rw [if_neg hx]

/-- Upgrade-row updates do not touch the profile rows. -/
theorem profilesFor_update (s : MembershipState) (oid : Nat) (uid uid' : String)
    (patch : UpgradeFieldPatch) :
    profilesFor (Class_upgradesService.update s oid uid patch) uid' = profilesFor s uid' := rfl


/-- Profile-row maps that preserve ownership commute with the
per-member profile query. -/
theorem profilesFor_map (s : MembershipState) (uid : String) (f : Profile → Profile)
    (hf : ∀ p, (f p).user_id = p.user_id) (u : List Class_upgrades) :
    profilesFor { profiles := s.profiles.map f, upgrades := u } uid
      = (profilesFor s uid).map f := by
  unfold profilesFor
  simp only
  rw [List.filter_map]
  congr 1
  apply List.filter_congr
  intro x _
  simp only [Function.comp_apply, hf]

/-! ## Claims -/

/-- C7: for every member with a profile, `request_class_upgrade` fails
with the InvalidUpgrade error whenever `to_class` does not rank strictly
higher than the member's current class in the fixed order A<B<C<D (same
class and downgrades included, and any class outside the table ranks 0),
and in that case no upgrade record is created and the state — in
particular the profile's class — is unchanged. -/
theorem C7_invalid_upgrade_rejected (s : MembershipState) (uid to_class now : String)
    (new_id : Nat) (p : Profile)
    (hp : (profilesFor s uid).head? = some p)
    (hord : class_order to_class ≤ class_order p.membership_class) :
    MembershipService.request_class_upgrade s uid to_class now new_id
      = (.error .invalidUpgrade, s) := by
  unfold MembershipService.request_class_upgrade
  rw [hp]
  dsimp only
  rw [if_pos hord]

/-- Witness for C7: a class-C member requesting a downgrade to B is
rejected with the state untouched. -/
theorem C7_witness :
    MembershipService.request_class_upgrade stC "u2" "B" "t2" 9
      = (.error .invalidUpgrade, stC) :=
  C7_invalid_upgrade_rejected stC "u2" "B" "t2" 9 profileC (by decide) (by decide)

/-- C8: `request_class_upgrade` fails with the Conflict error whenever an
existing upgrade of the member is `pending` (and the request is otherwise
valid, the strictly-higher-class check coming first in the code), leaving
the state unchanged; consequently, of two successive valid calls the
second fails with Conflict before the first upgrade resolves, creating no
record and changing no state. -/
theorem C8_pending_conflict (s : MembershipState) (uid : String) :
    (∀ to_class now new_id p,
        (profilesFor s uid).head? = some p →
        class_order p.membership_class < class_order to_class →
        pendingFor s uid ≠ [] →
        MembershipService.request_class_upgrade s uid to_class now new_id
          = (.error .conflict, s)) ∧
    (∀ to1 to2 now1 now2 id1 id2 p,
        (profilesFor s uid).head? = some p →
        pendingFor s uid = [] →
        class_order p.membership_class < class_order to1 →
        class_order to1 < class_order to2 →
        (MembershipService.request_class_upgrade s uid to1 now1 id1).1.toOption.isSome
          = true ∧
        MembershipService.request_class_upgrade
            (MembershipService.request_class_upgrade s uid to1 now1 id1).2 uid to2 now2 id2
          = (.error .conflict,
             (MembershipService.request_class_upgrade s uid to1 now1 id1).2)) := by
  constructor
  · intro to_class now new_id p hp hord hpend
    unfold MembershipService.request_class_upgrade
    rw [hp]
    dsimp only
    rw [if_neg (not_le.2 hord), if_pos hpend]
  · intro to1 to2 now1 now2 id1 id2 p hp hpend hord1 hord2
    have hpu : p.user_id = uid := profilesFor_head_user hp
    set newUp : Class_upgrades :=
      { id := id1, user_id := uid, profile_id := p.id, from_class := p.membership_class,
        to_class := to1, status := "pending", payments_in_new_class := some 0,
        requested_at := now1, activated_at := none } with hnew
    set g : Profile → Profile := fun q =>
      if q.id == p.id && q.user_id == uid then
        { q with membership_class := to1, updated_at := now1 } else q with hg
    set s2 : MembershipState :=
      { profiles := s.profiles.map g, upgrades := s.upgrades ++ [newUp] } with hs2
    have h1 : MembershipService.request_class_upgrade s uid to1 now1 id1
        = (.ok { success := true
                 message := "Upgrade de classe " ++ p.membership_class ++ " para " ++ to1
                   ++ " solicitado. O novo limite estará disponível após 3 pagamentos."
                 upgrade_id := id1 }, s2) := by
      unfold MembershipService.request_class_upgrade
      rw [hp]
      dsimp only
      rw [if_neg (not_le.2 hord1), if_neg (not_not_intro hpend)]
    have hgf : ∀ q : Profile, (g q).user_id = q.user_id := by
      intro q
      rw [hg]
      dsimp only
      by_cases hq : (q.id == p.id && q.user_id == uid) = true
      · rw [if_pos hq]
      · rw [if_neg hq]
    have hp2 : (profilesFor s2 uid).head? = some (g p) := by
      rw [hs2, profilesFor_map s uid g hgf, List.head?_map, hp]
      rfl
    have hgp : (g p).membership_class = to1 := by
      rw [hg]
      dsimp only
      rw [if_pos (by simp [hpu])]
    have hpend2 : pendingFor s2 uid = [newUp] := by
      unfold pendingFor at hpend ⊢
      rw [hs2]
      dsimp only
      rw [List.filter_append, hpend]
      simp [hnew]
    rw [h1]
    dsimp only
    refine ⟨rfl, ?_⟩
    unfold MembershipService.request_class_upgrade
    rw [hp2]
    dsimp only
    rw [hgp, if_neg (not_le.2 hord2), if_pos (by rw [hpend2]; exact List.cons_ne_nil _ _)]

/-- Witness for C8: with a pending upgrade on file a further valid
request conflicts; and a valid A→B request followed by a valid B→C
request makes the second call fail with Conflict, state preserved. -/
theorem C8_witness :
    MembershipService.request_class_upgrade stPend "u1" "B" "t9" 9
      = (.error .conflict, stPend) ∧
    ((MembershipService.request_class_upgrade stA "u1" "B" "n1" 7).1.toOption.isSome
       = true ∧
     MembershipService.request_class_upgrade
         (MembershipService.request_class_upgrade stA "u1" "B" "n1" 7).2 "u1" "C" "n2" 8
       = (.error .conflict,
          (MembershipService.request_class_upgrade stA "u1" "B" "n1" 7).2)) :=
  ⟨(C8_pending_conflict stPend "u1").1 "B" "t9" 9 profileA
      (by decide) (by decide) (by decide),
   (C8_pending_conflict stA "u1").2 "B" "C" "n1" "n2" 7 8 profileA
      (by decide) (by decide) (by decide) (by decide)⟩

/-- C2 (evidence of the atomicity bug): for a valid A→B request whose
profile-update persistence fails, the reachable state keeps the already
committed pending `ClassUpgradeRequest` while `membership_class` is still
"A" — exactly the half-applied state the claim says is unreachable,
because `Class_upgradesService.create` commits in its own transaction
before the profile update runs. -/
theorem C2_partial_commit_reachable :
    MembershipService.request_class_upgrade_update_failure stA "u1" "B" "t1" 7
      = (.persistenceFailure,
         { profiles := [profileA]
           upgrades := [{ id := 7, user_id := "u1", profile_id := 1, from_class := "A",
                          to_class := "B", status := "pending",
                          payments_in_new_class := some 0, requested_at := "t1",
                          activated_at := none }] }) ∧
    (MembershipService.request_class_upgrade_update_failure stA "u1" "B" "t1" 7).2.profiles.map
        (fun p => p.membership_class) = ["A"] ∧
    (MembershipService.request_class_upgrade_update_failure stA "u1" "B" "t1" 7).2.upgrades.map
        (fun u => u.status) = ["pending"] :=
  ⟨by decide, by decide, by decide⟩

/-- C3 counterexample: for the eligible class-A member of `stA` the
eligibility result contains `eligible=true` and the limit 2000, but no
entry of the returned dict carries the monthly due 25 — refuting the
claim that the result contains both the limit and the monthly due. -/
theorem C3_counterexample :
    ("eligible", PyVal.pbool true) ∈ MembershipService.check_eligibility stA "u1" ∧
    ("limit", PyVal.pnum 2000) ∈ MembershipService.check_eligibility stA "u1" ∧
    ¬ ∃ kv ∈ MembershipService.check_eligibility stA "u1", kv.2 = PyVal.pnum 25 :=
  ⟨by decide, by decide, by decide⟩

/-- C3 (amended): for every profile passing all four checks the result
has `eligible=true` and carries the member's class limit from
`get_class_limits`, whose table is A→(25, 2000), B→(50, 3000),
C→(75, 5000), D→(100, 10000); the monthly due is looked up but not
included in the result (see the counterexample). -/
theorem C3_eligible_limit (s : MembershipState) (uid : String) (p : Profile)
    (hp : (profilesFor s uid).head? = some p)
    (hfee : p.join_fee_paid = true)
    (hmonths : 6 ≤ p.paid_months_count.getD 0)
    (harrears : p.months_in_arrears.getD 0 ≤ 2)
    (hstatus : p.membership_status = "active") :
    ("eligible", PyVal.pbool true) ∈ MembershipService.check_eligibility s uid ∧
    ("limit", PyVal.pnum (MembershipService.get_class_limits p.membership_class).limit)
      ∈ MembershipService.check_eligibility s uid ∧
    MembershipService.get_class_limits "A" = { monthly := 25, limit := 2000 } ∧
    MembershipService.get_class_limits "B" = { monthly := 50, limit := 3000 } ∧
    MembershipService.get_class_limits "C" = { monthly := 75, limit := 5000 } ∧
    MembershipService.get_class_limits "D" = { monthly := 100, limit := 10000 } := by
  unfold MembershipService.check_eligibility
  rw [hp]
  dsimp only
  rw [hfee]
  rw [if_neg (by simp), if_neg (not_lt.2 hmonths), if_neg (not_lt.2 harrears),
      if_neg (not_not_intro hstatus)]
  refine ⟨by simp, by simp, by decide, by decide, by decide, by decide⟩

/-- Witness for C3's amended theorem at the concrete member of `stA`. -/
theorem C3_eligible_limit_witness :
    ("eligible", PyVal.pbool true) ∈ MembershipService.check_eligibility stA "u1" ∧
    ("limit", PyVal.pnum (MembershipService.get_class_limits profileA.membership_class).limit)
      ∈ MembershipService.check_eligibility stA "u1" ∧
    MembershipService.get_class_limits "A" = { monthly := 25, limit := 2000 } ∧
    MembershipService.get_class_limits "B" = { monthly := 50, limit := 3000 } ∧
    MembershipService.get_class_limits "C" = { monthly := 75, limit := 5000 } ∧
    MembershipService.get_class_limits "D" = { monthly := 100, limit := 10000 } :=
  C3_eligible_limit stA "u1" profileA (by decide) (by decide) (by decide)
    (by decide) (by decide)

/-- C4: `check_eligibility` fails closed — with no profile, or with an
unpaid join fee, fewer than 6 paid months, more than 2 months in
arrears, or a non-active status, the result carries `eligible=false`
together with a reason, regardless of every other field. -/
theorem C4_fails_closed (s : MembershipState) (uid : String) :
    ((profilesFor s uid).head? = none →
        ("eligible", PyVal.pbool false) ∈ MembershipService.check_eligibility s uid ∧
        ∃ msg, ("reason", PyVal.pstr msg) ∈ MembershipService.check_eligibility s uid) ∧
    (∀ p, (profilesFor s uid).head? = some p →
        (p.join_fee_paid = false ∨ p.paid_months_count.getD 0 < 6 ∨
          2 < p.months_in_arrears.getD 0 ∨ p.membership_status ≠ "active") →
        ("eligible", PyVal.pbool false) ∈ MembershipService.check_eligibility s uid ∧
        ∃ msg, ("reason", PyVal.pstr msg) ∈ MembershipService.check_eligibility s uid) := by
  constructor
  · intro h
    unfold MembershipService.check_eligibility
    rw [h]
    exact ⟨by simp, ⟨"Perfil não encontrado", by simp⟩⟩
  · intro p hp hbad
    unfold MembershipService.check_eligibility
    rw [hp]
    dsimp only
    split_ifs with h1 h2 h3 h4
    · exact ⟨by simp, ⟨"Taxa de adesão não paga", by simp⟩⟩
    · exact ⟨by simp,
        ⟨"Necessário 6 meses pagos consecutivos. Você tem "
            ++ toString (p.paid_months_count.getD 0) ++ " meses.", by simp⟩⟩
    · exact ⟨by simp, ⟨"Mais de 2 meses em atraso. Regularize seus pagamentos.", by simp⟩⟩
    · exact ⟨by simp, ⟨"Status da conta: " ++ p.membership_status, by simp⟩⟩
    · exfalso
      simp only [Bool.not_eq_true] at h1
      rcases hbad with hb | hb | hb | hb
      · rw [hb] at h1; simp at h1
      · exact h2 hb
      · exact h3 hb
      · exact h4 hb

/-- Witness for C4: the fee-unpaid member of `stNoFee` is ineligible with
a reason, and so is an unknown member of the empty state. -/
theorem C4_fails_closed_witness :
    (("eligible", PyVal.pbool false) ∈ MembershipService.check_eligibility stNoFee "u3" ∧
     ∃ msg, ("reason", PyVal.pstr msg) ∈ MembershipService.check_eligibility stNoFee "u3") ∧
    (("eligible", PyVal.pbool false) ∈ MembershipService.check_eligibility stEmpty "nobody" ∧
     ∃ msg, ("reason", PyVal.pstr msg) ∈ MembershipService.check_eligibility stEmpty "nobody") :=
  ⟨(C4_fails_closed stNoFee "u3").2 profileNoFee (by decide) (Or.inl (by decide)),
   (C4_fails_closed stEmpty "nobody").1 (by decide)⟩

/-- C1: starting from a member with a profile and one pending upgrade
whose payment counter is 0, three calls of `process_monthly_payment`
report plain success without activation on the first two calls (the
upgrade still `pending` with counter 2 after the second), and on the
third call report `upgrade_activated=true`, set the upgrade's status to
`active` and stamp `activated_at`. -/
theorem C1_third_payment_activates
    (s : MembershipState) (uid n1 n2 n3 : String) (up : Class_upgrades)
    (o1 o2 o3 : PaymentOutcome) (s1 s2 s3 : MembershipState)
    (hp : (profilesFor s uid).head?.isSome = true)
    (hu : pendingFor s uid = [up])
    (h0 : up.payments_in_new_class.getD 0 = 0)
    (e1 : MembershipService.process_monthly_payment s uid n1 = (o1, s1))
    (e2 : MembershipService.process_monthly_payment s1 uid n2 = (o2, s2))
    (e3 : MembershipService.process_monthly_payment s2 uid n3 = (o3, s3)) :
    (o1.success = true ∧ o1.upgrade_activated = false) ∧
    (o2.success = true ∧ o2.upgrade_activated = false) ∧
    pendingFor s2 uid = [{ up with payments_in_new_class := some 2 }] ∧
    (o3.success = true ∧ o3.upgrade_activated = true) ∧
    ({ up with
       payments_in_new_class := some 3
       status := "active"
       activated_at := some n3 } : Class_upgrades) ∈ s3.upgrades := by
  obtain ⟨pp, hpp⟩ := Option.isSome_iff_exists.1 hp
  obtain ⟨hupmem, hupid, hupst⟩ := pendingFor_singleton hu
  -- first call: counter 0 → 1, no activation
  have e1x : MembershipService.process_monthly_payment s uid n1
      = ({ success := true, message := "Pagamento processado com sucesso" },
         Class_upgradesService.update s up.id uid { payments_in_new_class := some 1 }) := by
    unfold MembershipService.process_monthly_payment
    rw [hpp]
    dsimp only
    rw [hu]
    dsimp only [List.head?]
    rw [show up.payments_in_new_class.getD 0 + 1 = 1 by omega]
    rw [if_neg (by decide : ¬(1 ≥ 3))]
  rw [e1] at e1x
  have ho1 : o1 = { success := true, message := "Pagamento processado com sucesso" } :=
    congrArg Prod.fst e1x
  have hs1 : s1 = Class_upgradesService.update s up.id uid
      { payments_in_new_class := some 1 } :=
    congrArg Prod.snd e1x
  subst hs1
  subst ho1
  have hpend1 : pendingFor (Class_upgradesService.update s up.id uid
        { payments_in_new_class := some 1 }) uid
      = [{ up with payments_in_new_class := some 1 }] := by
    rw [pendingFor_update s up.id uid _ rfl, hu]
    dsimp only [List.map]
    rw [if_pos (by simp [hupid])]
    rfl
  have hprof1 : (profilesFor (Class_upgradesService.update s up.id uid
        { payments_in_new_class := some 1 }) uid).head? = some pp := hpp
  -- second call: counter 1 → 2, no activation
  have e2x : MembershipService.process_monthly_payment (Class_upgradesService.update s up.id uid
        { payments_in_new_class := some 1 }) uid n2
      = ({ success := true, message := "Pagamento processado com sucesso" },
         Class_upgradesService.update (Class_upgradesService.update s up.id uid
           { payments_in_new_class := some 1 }) up.id uid
           { payments_in_new_class := some 2 }) := by
    unfold MembershipService.process_monthly_payment
    rw [hprof1]
    dsimp only
    rw [hpend1]
    dsimp only [List.head?]
    rw [show ({ up with payments_in_new_class := some 1 }
        : Class_upgrades).payments_in_new_class.getD 0 + 1 = 2 from rfl]
    rw [if_neg (by decide : ¬(2 ≥ 3))]
  rw [e2] at e2x
  have ho2 : o2 = { success := true, message := "Pagamento processado com sucesso" } :=
    congrArg Prod.fst e2x
  have hs2 : s2 = Class_upgradesService.update (Class_upgradesService.update s up.id uid
      { payments_in_new_class := some 1 }) up.id uid { payments_in_new_class := some 2 } :=
    congrArg Prod.snd e2x
  subst hs2
  subst ho2
  have hpend2 : pendingFor (Class_upgradesService.update (Class_upgradesService.update s up.id uid
        { payments_in_new_class := some 1 }) up.id uid
        { payments_in_new_class := some 2 }) uid
      = [{ up with payments_in_new_class := some 2 }] := by
    rw [pendingFor_update _ up.id uid _ rfl, hpend1]
    dsimp only [List.map]
    rw [if_pos (by simp [hupid])]
    rfl
  have hprof2 : (profilesFor (Class_upgradesService.update (Class_upgradesService.update s up.id uid
        { payments_in_new_class := some 1 }) up.id uid
        { payments_in_new_class := some 2 }) uid).head? = some pp := hpp
  -- third call: counter 2 → 3, activation
  have e3x : MembershipService.process_monthly_payment
        (Class_upgradesService.update (Class_upgradesService.update s up.id uid
          { payments_in_new_class := some 1 }) up.id uid
          { payments_in_new_class := some 2 }) uid n3
      = ({ success := true
           message := "Upgrade para classe " ++ up.to_class ++ " ativado! Novo limite disponível."
           upgrade_activated := true },
         Class_upgradesService.update
           (Class_upgradesService.update
             (Class_upgradesService.update (Class_upgradesService.update s up.id uid
               { payments_in_new_class := some 1 }) up.id uid
               { payments_in_new_class := some 2 }) up.id uid
             { payments_in_new_class := some 3 }) up.id uid
           { status := some "active", activated_at := some n3 }) := by
    unfold MembershipService.process_monthly_payment
    rw [hprof2]
    dsimp only
    rw [hpend2]
    dsimp only [List.head?]
    rw [show ({ up with payments_in_new_class := some 2 }
        : Class_upgrades).payments_in_new_class.getD 0 + 1 = 3 from rfl]
    rw [if_pos (by decide : 3 ≥ 3)]
  rw [e3] at e3x
  have ho3 : o3 = { success := true
                    message := "Upgrade para classe " ++ up.to_class
                      ++ " ativado! Novo limite disponível."
                    upgrade_activated := true } :=
    congrArg Prod.fst e3x
  have hs3 : s3 = Class_upgradesService.update
      (Class_upgradesService.update
        (Class_upgradesService.update (Class_upgradesService.update s up.id uid
          { payments_in_new_class := some 1 }) up.id uid
          { payments_in_new_class := some 2 }) up.id uid
        { payments_in_new_class := some 3 }) up.id uid
      { status := some "active", activated_at := some n3 } :=
    congrArg Prod.snd e3x
  subst hs3
  subst ho3
  -- the activated row is in the final state
  have hpend3 : pendingFor (Class_upgradesService.update
        (Class_upgradesService.update (Class_upgradesService.update s up.id uid
          { payments_in_new_class := some 1 }) up.id uid
          { payments_in_new_class := some 2 }) up.id uid
        { payments_in_new_class := some 3 }) uid
      = [{ up with payments_in_new_class := some 3 }] := by
    rw [pendingFor_update _ up.id uid _ rfl, hpend2]
    dsimp only [List.map]
    rw [if_pos (by simp [hupid])]
    rfl
  have hm3 : ({ up with payments_in_new_class := some 3 } : Class_upgrades)
      ∈ (Class_upgradesService.update
        (Class_upgradesService.update (Class_upgradesService.update s up.id uid
          { payments_in_new_class := some 1 }) up.id uid
          { payments_in_new_class := some 2 }) up.id uid
        { payments_in_new_class := some 3 }).upgrades :=
    (pendingFor_singleton hpend3).1
  refine ⟨⟨rfl, rfl⟩, ⟨rfl, rfl⟩, hpend2, ⟨rfl, rfl⟩, ?_⟩
  unfold Class_upgradesService.update
  dsimp only
  refine List.mem_map.2 ⟨{ up with payments_in_new_class := some 3 }, hm3, ?_⟩
  dsimp only
  rw [if_pos (by simp [hupid])]
  rfl

/-- Witness for C1 at the concrete member of `stPend`: the third payment
(and only the third) activates the pending A→B upgrade. -/
theorem C1_witness :
    ((MembershipService.process_monthly_payment stPend "u1" "m1").1.success = true ∧
     (MembershipService.process_monthly_payment stPend "u1" "m1").1.upgrade_activated
       = false) ∧
    ((MembershipService.process_monthly_payment
        (MembershipService.process_monthly_payment stPend "u1" "m1").2 "u1" "m2").1.success
         = true ∧
     (MembershipService.process_monthly_payment
        (MembershipService.process_monthly_payment stPend "u1" "m1").2
        "u1" "m2").1.upgrade_activated = false) ∧
    pendingFor (MembershipService.process_monthly_payment
        (MembershipService.process_monthly_payment stPend "u1" "m1").2 "u1" "m2").2 "u1"
      = [{ upP with payments_in_new_class := some 2 }] ∧
    ((MembershipService.process_monthly_payment (MembershipService.process_monthly_payment
        (MembershipService.process_monthly_payment stPend "u1" "m1").2 "u1" "m2").2
        "u1" "m3").1.success = true ∧
     (MembershipService.process_monthly_payment (MembershipService.process_monthly_payment
        (MembershipService.process_monthly_payment stPend "u1" "m1").2 "u1" "m2").2
        "u1" "m3").1.upgrade_activated = true) ∧
    ({ upP with
       payments_in_new_class := some 3
       status := "active"
       activated_at := some "m3" } : Class_upgrades)
      ∈ (MembershipService.process_monthly_payment (MembershipService.process_monthly_payment
          (MembershipService.process_monthly_payment stPend "u1" "m1").2 "u1" "m2").2
          "u1" "m3").2.upgrades :=
  C1_third_payment_activates stPend "u1" "m1" "m2" "m3" upP _ _ _ _ _ _
    (by decide) (by decide) (by decide) rfl rfl rfl

/-- One `Class_upgradesService.update` call relates old and new upgrade
rows: identity and request fields survive, and rows whose primary key
differs from the patched id are untouched. -/
theorem update_upgrades_frame (s : MembershipState) (oid : Nat) (uid : String)
    (patch : UpgradeFieldPatch) :
    List.Forall₂ (fun a b : Class_upgrades =>
        (b.id = a.id ∧ b.user_id = a.user_id ∧ b.profile_id = a.profile_id ∧
         b.from_class = a.from_class ∧ b.to_class = a.to_class ∧
         b.requested_at = a.requested_at) ∧ (a.id ≠ oid → b = a))
      s.upgrades (Class_upgradesService.update s oid uid patch).upgrades := by
  unfold Class_upgradesService.update
  dsimp only
  refine List.forall₂_map_right_iff.mpr (List.forall₂_same.mpr ?_)
  intro x _
  by_cases hc : (x.id == oid && x.user_id == uid) = true
  · rw [if_pos hc]
    have hid : x.id = oid := by
      simp only [Bool.and_eq_true, beq_iff_eq] at hc
      exact hc.1
    exact ⟨⟨Class_upgrades.applyPatch_id x patch, Class_upgrades.applyPatch_user_id x patch,
            rfl, rfl, rfl, rfl⟩,
           fun hne => absurd hid hne⟩
  · rw [if_neg hc]
    exact ⟨⟨rfl, rfl, rfl, rfl, rfl, rfl⟩, fun _ => rfl⟩

/-- The frame relation of `update_upgrades_frame` composes. -/
theorem upgrades_frame_trans {oid : Nat} {l1 l2 l3 : List Class_upgrades}
    (h1 : List.Forall₂ (fun a b : Class_upgrades =>
        (b.id = a.id ∧ b.user_id = a.user_id ∧ b.profile_id = a.profile_id ∧
         b.from_class = a.from_class ∧ b.to_class = a.to_class ∧
         b.requested_at = a.requested_at) ∧ (a.id ≠ oid → b = a)) l1 l2)
    (h2 : List.Forall₂ (fun a b : Class_upgrades =>
        (b.id = a.id ∧ b.user_id = a.user_id ∧ b.profile_id = a.profile_id ∧
         b.from_class = a.from_class ∧ b.to_class = a.to_class ∧
         b.requested_at = a.requested_at) ∧ (a.id ≠ oid → b = a)) l2 l3) :
    List.Forall₂ (fun a b : Class_upgrades =>
        (b.id = a.id ∧ b.user_id = a.user_id ∧ b.profile_id = a.profile_id ∧
         b.from_class = a.from_class ∧ b.to_class = a.to_class ∧
         b.requested_at = a.requested_at) ∧ (a.id ≠ oid → b = a)) l1 l3 := by
  induction h1 generalizing l3 with
  | nil => cases h2; exact List.Forall₂.nil
  | cons hab htail ih =>
    cases h2 with
    | cons hbc htail2 =>
      refine List.Forall₂.cons ?_ (ih htail2)
      obtain ⟨⟨i1, u1, p1, f1, t1, r1⟩, e1⟩ := hab
      obtain ⟨⟨i2, u2, p2, f2, t2, r2⟩, e2⟩ := hbc
      refine ⟨⟨i2.trans i1, u2.trans u1, p2.trans p1, f2.trans f1, t2.trans t1,
              r2.trans r1⟩, ?_⟩
      intro hne
      have hb := e1 hne
      have hc := e2 (by rw [i1]; exact hne)
      rw [hc, hb]

/-- C10: `process_monthly_payment` never modifies any profile row; the
upgrade rows keep their identity and request fields (`id`, `user_id`,
`profile_id`, `from_class`, `to_class`, `requested_at`) — only the found
pending upgrade's `payments_in_new_class`, `status` and `activated_at`
may change — rows with a different id are untouched, and with no pending
upgrade the state is unchanged entirely. -/
theorem C10_no_profile_mutation (s : MembershipState) (uid now : String) :
    (MembershipService.process_monthly_payment s uid now).2.profiles = s.profiles ∧
    List.Forall₂ (fun a b : Class_upgrades =>
        b.id = a.id ∧ b.user_id = a.user_id ∧ b.profile_id = a.profile_id ∧
        b.from_class = a.from_class ∧ b.to_class = a.to_class ∧
        b.requested_at = a.requested_at)
      s.upgrades (MembershipService.process_monthly_payment s uid now).2.upgrades ∧
    (∀ up, (pendingFor s uid).head? = some up →
      List.Forall₂ (fun a b : Class_upgrades => a.id ≠ up.id → b = a)
        s.upgrades (MembershipService.process_monthly_payment s uid now).2.upgrades) ∧
    ((pendingFor s uid).head? = none →
      (MembershipService.process_monthly_payment s uid now).2 = s) := by
  unfold MembershipService.process_monthly_payment
  cases hpp : (profilesFor s uid).head? with
  | none =>
    dsimp only
    exact ⟨rfl,
      List.forall₂_same.mpr (fun x _ => ⟨rfl, rfl, rfl, rfl, rfl, rfl⟩),
      fun up _ => List.forall₂_same.mpr (fun x _ _ => rfl),
      fun _ => rfl⟩
  | some pp =>
    dsimp only
    cases hpu : (pendingFor s uid).head? with
    | none =>
      dsimp only
      refine ⟨rfl,
        List.forall₂_same.mpr (fun x _ => ⟨rfl, rfl, rfl, rfl, rfl, rfl⟩),
        ?_, fun _ => rfl⟩
      intro up hup
      cases hup
    | some up =>
      dsimp only
      by_cases h3 : up.payments_in_new_class.getD 0 + 1 ≥ 3
      · rw [if_pos h3]
        dsimp only
        have hframe := upgrades_frame_trans
          (update_upgrades_frame s up.id uid
            { payments_in_new_class := some (up.payments_in_new_class.getD 0 + 1) })
          (update_upgrades_frame
            (Class_upgradesService.update s up.id uid
              { payments_in_new_class := some (up.payments_in_new_class.getD 0 + 1) })
            up.id uid { status := some "active", activated_at := some now })
        refine ⟨rfl, hframe.imp (fun _ _ hab => hab.1), ?_, ?_⟩
        · intro up' hup'
          injection hup' with hval
          subst hval
          exact hframe.imp (fun _ _ hab => hab.2)
        · intro hnone
          cases hnone
      · rw [if_neg h3]
        dsimp only
        have hframe := update_upgrades_frame s up.id uid
          { payments_in_new_class := some (up.payments_in_new_class.getD 0 + 1) }
        refine ⟨rfl, hframe.imp (fun _ _ hab => hab.1), ?_, ?_⟩
        · intro up' hup'
          injection hup' with hval
          subst hval
          exact hframe.imp (fun _ _ hab => hab.2)
        · intro hnone
          cases hnone

/-- Witness for C10 at the concrete states `stPend` (pending upgrade
present) and `stA` (no pending upgrade). -/
theorem C10_witness :
    (MembershipService.process_monthly_payment stPend "u1" "w").2.profiles
      = stPend.profiles ∧
    List.Forall₂ (fun a b : Class_upgrades => a.id ≠ upP.id → b = a)
      stPend.upgrades
      (MembershipService.process_monthly_payment stPend "u1" "w").2.upgrades ∧
    (MembershipService.process_monthly_payment stA "u1" "w").2 = stA :=
  ⟨(C10_no_profile_mutation stPend "u1" "w").1,
   (C10_no_profile_mutation stPend "u1" "w").2.2.1 upP (by rfl),
   (C10_no_profile_mutation stA "u1" "w").2.2.2 (by rfl)⟩

/-- C5: `calculate_repayment_plan` fails with the InvalidArgument error
exactly when `installments` is outside 1..12; otherwise it returns
`total_to_repay = round2(amount × 1.02)`, the per-installment amount
`round2(total/n)`, and exactly `n` installment records, the i-th
`pending` and due `i` calendar months after the current date; in
particular `calculate_repayment_plan(1000, 12)` yields total 1020.00,
installment amount 85.00 and 12 records. -/
theorem C5_repayment_plan (amount : ℚ) (n : Nat) (d : Date) :
    ((RepaymentCalculator.calculate_repayment_plan amount n d).toOption = none
       ↔ (n < 1 ∨ 12 < n)) ∧
    (n < 1 ∨ 12 < n →
      RepaymentCalculator.calculate_repayment_plan amount n d
        = .error "Installments must be between 1 and 12") ∧
    (∀ p, RepaymentCalculator.calculate_repayment_plan amount n d = .ok p →
      p.total_to_repay = round2 (amount * 1.02) ∧
      p.installment_amount = round2 (amount * 1.02 / (n : ℚ)) ∧
      p.schedule.length = n ∧
      (∀ j, j < n →
        p.schedule[j]? = some { installment_number := j + 1
                                amount := round2 (amount * 1.02 / (n : ℚ))
                                due_date := d.addMonths (j + 1)
                                status := "pending" })) ∧
    ((RepaymentCalculator.calculate_repayment_plan 1000 12 d).toOption.map
        (fun p => (p.total_to_repay, p.installment_amount, p.schedule.length))
      = some (1020, 85, 12)) := by
  have hconc : (RepaymentCalculator.calculate_repayment_plan 1000 12 d).toOption.map
      (fun p => (p.total_to_repay, p.installment_amount, p.schedule.length))
      = some (1020, 85, 12) := by
    unfold RepaymentCalculator.calculate_repayment_plan
    rw [if_neg (by decide)]
    dsimp only [Except.toOption, Option.map]
    refine congrArg some ?_
    refine Prod.ext ?_ (Prod.ext ?_ ?_) <;> dsimp only
    · norm_num [round2, round_eq]
    · norm_num [round2, round_eq]
    · simp
  by_cases hn : n < 1 ∨ 12 < n
  · have hc : (n < 1 || n > 12) = true := by
      simp only [Bool.or_eq_true, decide_eq_true_eq]
      exact hn
    refine ⟨?_, fun _ => ?_, fun p hp => ?_, hconc⟩
    · unfold RepaymentCalculator.calculate_repayment_plan
      rw [if_pos hc]
      dsimp only [Except.toOption]
      exact iff_of_true rfl hn
    · unfold RepaymentCalculator.calculate_repayment_plan
      rw [if_pos hc]
    · unfold RepaymentCalculator.calculate_repayment_plan at hp
      rw [if_pos hc] at hp
      cases hp
  · have hc : ¬((n < 1 || n > 12) = true) := by
      simp only [Bool.or_eq_true, decide_eq_true_eq]
      exact hn
    refine ⟨?_, fun hbad => absurd hbad hn, fun p hp => ?_, hconc⟩
    · unfold RepaymentCalculator.calculate_repayment_plan
      rw [if_neg hc]
      constructor
      · intro h
        exact absurd h (by simp [Except.toOption])
      · intro h
        exact absurd h hn
    · unfold RepaymentCalculator.calculate_repayment_plan at hp
      rw [if_neg hc] at hp
      injection hp with hpe
      subst hpe
      refine ⟨rfl, rfl, by simp, ?_⟩
      intro j hj
      rw [List.getElem?_map]
      have hr : (List.range n)[j]? = some j := by simp [List.getElem?_range, hj]
      rw [hr]
      rfl

/-- Witness for C5: 13 installments are rejected with the InvalidArgument
error, and the 1000/12 example plan has the claimed totals, length and
first installment. -/
theorem C5_witness :
    RepaymentCalculator.calculate_repayment_plan 100 13 sampleDate
      = .error "Installments must be between 1 and 12" ∧
    planExample.total_to_repay = round2 (1000 * 1.02) ∧
    planExample.installment_amount = round2 (1000 * 1.02 / (12 : ℚ)) ∧
    planExample.schedule.length = 12 ∧
    planExample.schedule[0]? = some { installment_number := 1
                                      amount := round2 (1000 * 1.02 / (12 : ℚ))
                                      due_date := sampleDate.addMonths 1
                                      status := "pending" } :=
  ⟨(C5_repayment_plan 100 13 sampleDate).2.1 (by omega),
   ((C5_repayment_plan 1000 12 sampleDate).2.2.1 planExample (by rfl)).1,
   ((C5_repayment_plan 1000 12 sampleDate).2.2.1 planExample (by rfl)).2.1,
   ((C5_repayment_plan 1000 12 sampleDate).2.2.1 planExample (by rfl)).2.2.1,
   ((C5_repayment_plan 1000 12 sampleDate).2.2.1 planExample (by rfl)).2.2.2 0 (by omega)⟩

/-- Key rounding bound: `n` equal installments of `round2 (t/n)` differ
from `round2 t` by at most `n` half-cents. -/
theorem round2_mul_div_bound (t : ℚ) (n : Nat) (hn : 1 ≤ n) :
    |(n : ℚ) * round2 (t / (n : ℚ)) - round2 t| ≤ (n : ℚ) * 0.005 := by
  have hn0 : (0 : ℚ) < n := by exact_mod_cast Nat.lt_of_lt_of_le Nat.zero_lt_one hn
  have round_le : ∀ x : ℚ, ((round x : ℤ) : ℚ) ≤ x + 1 / 2 := by
    intro x
    rw [round_eq]
    exact_mod_cast Int.floor_le (x + 1 / 2)
  have round_gt : ∀ x : ℚ, x - 1 / 2 < ((round x : ℤ) : ℚ) := by
    intro x
    rw [round_eq]
    have h := Int.sub_one_lt_floor (x + 1 / 2)
    calc x - 1 / 2 = x + 1 / 2 - 1 := by ring
    _ < ((⌊x + 1 / 2⌋ : ℤ) : ℚ) := h
  unfold round2
  set q : ℤ := round (t / (n : ℚ) * 100) with hq
  set r : ℤ := round (t * 100) with hr
  have hq1 : (q : ℚ) ≤ t / n * 100 + 1 / 2 := round_le _
  have hq2 : t / n * 100 - 1 / 2 < (q : ℚ) := round_gt _
  have hr1 : (r : ℚ) ≤ t * 100 + 1 / 2 := round_le _
  have hr2 : t * 100 - 1 / 2 < (r : ℚ) := round_gt _
  have hne : (n : ℚ) ≠ 0 := ne_of_gt hn0
  have hq1' : (n : ℚ) * q ≤ t * 100 + (n : ℚ) / 2 := by
    have h := mul_le_mul_of_nonneg_left hq1 (le_of_lt hn0)
    calc (n : ℚ) * q ≤ (n : ℚ) * (t / n * 100 + 1 / 2) := h
    _ = t * 100 + (n : ℚ) / 2 := by field_simp; ring
  have hq2' : t * 100 - (n : ℚ) / 2 < (n : ℚ) * q := by
    have h := mul_lt_mul_of_pos_left hq2 hn0
    calc t * 100 - (n : ℚ) / 2 = (n : ℚ) * (t / n * 100 - 1 / 2) := by field_simp; ring
    _ < (n : ℚ) * q := h
  have hk1 : (n : ℚ) * q - r < ((n : ℚ) + 1) / 2 := by linarith
  have hk2 : -(((n : ℚ) + 1) / 2) < (n : ℚ) * q - r := by linarith
  have hkq : (((n : ℤ) * q - r : ℤ) : ℚ) = (n : ℚ) * q - r := by push_cast; ring
  have habs : |(((n : ℤ) * q - r : ℤ) : ℚ)| < ((n : ℚ) + 1) / 2 := by
    rw [hkq]
    exact abs_lt.mpr ⟨hk2, hk1⟩
  have h2k : 2 * |(n : ℤ) * q - r| < (n : ℤ) + 1 := by
    have hx : ((2 * |(n : ℤ) * q - r| : ℤ) : ℚ) < ((n : ℤ) : ℚ) + 1 := by
      push_cast
      push_cast at habs
      linarith [habs]
    exact_mod_cast hx
  have h2k' : 2 * |(n : ℤ) * q - r| ≤ (n : ℤ) := by omega
  have hfinal : |(n : ℚ) * q - r| ≤ (n : ℚ) / 2 := by
    have hx : ((2 * |(n : ℤ) * q - r| : ℤ) : ℚ) ≤ ((n : ℤ) : ℚ) := by exact_mod_cast h2k'
    push_cast at hx
    linarith [hx]
  have hsplit : (n : ℚ) * ((q : ℚ) / 100) - (r : ℚ) / 100 = ((n : ℚ) * q - r) / 100 := by
    ring
  rw [hsplit, abs_div]
  rw [show |(100 : ℚ)| = 100 from by norm_num]
  have hdiv : |(n : ℚ) * q - r| / 100 ≤ ((n : ℚ) / 2) / 100 := by
    linarith [hfinal]
  calc |(n : ℚ) * q - r| / 100 ≤ ((n : ℚ) / 2) / 100 := hdiv
  _ = (n : ℚ) * 0.005 := by ring

/-- C6: for every plan produced with valid installments, the sum of the
installment amounts differs from the stored (rounded) `total_to_repay`
by at most `n × 0.005`; every due date is the request date advanced by
one calendar month per installment, consecutive due dates strictly
increase, and the first due date is the request date plus one month. -/
theorem C6_plan_invariants (amount : ℚ) (n : Nat) (d : Date) (p : RepaymentPlan)
    (hp : RepaymentCalculator.calculate_repayment_plan amount n d = .ok p) :
    |(p.schedule.map (fun i => i.amount)).sum - p.total_to_repay| ≤ (n : ℚ) * 0.005 ∧
    p.first_due_date = d.addMonths 1 ∧
    (∀ j a, p.schedule[j]? = some a → a.due_date = d.addMonths (j + 1)) ∧
    (∀ j a b, p.schedule[j]? = some a → p.schedule[j + 1]? = some b →
      Date.before a.due_date b.due_date = true) := by
  by_cases hc : (n < 1 || n > 12) = true
  · unfold RepaymentCalculator.calculate_repayment_plan at hp
    rw [if_pos hc] at hp
    cases hp
  · unfold RepaymentCalculator.calculate_repayment_plan at hp
    rw [if_neg hc] at hp
    have hn1 : 1 ≤ n := by
      simp only [Bool.or_eq_true, decide_eq_true_eq, not_or] at hc
      omega
    injection hp with hpe
    subst hpe
    have hdue : ∀ j a, (((List.range n).map (fun j : Nat =>
        ({ installment_number := j + 1
           amount := round2 (amount * 1.02 / (n : ℚ))
           due_date := d.addMonths (j + 1)
           status := "pending" } : InstallmentRec)))[j]? = some a) →
        a.due_date = d.addMonths (j + 1) := by
      intro j a ha
      rw [List.getElem?_map] at ha
      cases hr : (List.range n)[j]? with
      | none => rw [hr] at ha; cases ha
      | some v =>
        rw [hr] at ha
        have hv : v = j := by
          have hlt := (List.getElem?_eq_some.1 hr).1
          have := (List.getElem?_eq_some.1 hr).2
          rw [List.getElem_range] at this
          exact this.symm
        subst hv
        injection ha with hae
        subst hae
        rfl
    refine ⟨?_, ?_, hdue, ?_⟩
    · dsimp only
      rw [List.map_map]
      rw [show ((fun i : InstallmentRec => i.amount) ∘ fun j : Nat =>
          ({ installment_number := j + 1
             amount := round2 (amount * 1.02 / (n : ℚ))
             due_date := d.addMonths (j + 1)
             status := "pending" } : InstallmentRec))
          = fun _ : Nat => round2 (amount * 1.02 / (n : ℚ)) from rfl]
      rw [List.map_const', List.length_range, List.sum_replicate, nsmul_eq_mul]
      exact round2_mul_div_bound (amount * 1.02) n hn1
    · dsimp only
      cases n with
      | zero => omega
      | succ m =>
        rw [List.range_succ_eq_map]
        dsimp only [List.map, List.head?]
        rfl
    · intro j a b ha hb
      rw [hdue j a ha, hdue (j + 1) b hb]
      exact Date.before_addMonths d (j + 1) (j + 2) (by omega)

/-- Witness for C6 on the 1000/12 example plan. -/
theorem C6_witness :
    |(planExample.schedule.map (fun i => i.amount)).sum - planExample.total_to_repay|
      ≤ ((12 : ℕ) : ℚ) * 0.005 ∧
    planExample.first_due_date = sampleDate.addMonths 1 ∧
    planExample.schedule[0]?.map (fun i => i.due_date) = some (sampleDate.addMonths 1) ∧
    Date.before (sampleDate.addMonths 1) (sampleDate.addMonths 2) = true := by
  have h := C6_plan_invariants 1000 12 sampleDate planExample (by rfl)
  refine ⟨h.1, h.2.1, ?_, ?_⟩
  · have ha : planExample.schedule[0]?
        = some { installment_number := 1
                 amount := round2 (1000 * 1.02 / ((12 : ℕ) : ℚ))
                 due_date := sampleDate.addMonths 1
                 status := "pending" } := by rfl
    have hd := h.2.2.1 0 _ ha
    rw [ha, ← hd]
    dsimp only [Option.map]
  · exact h.2.2.2 0
      { installment_number := 1
        amount := round2 (1000 * 1.02 / ((12 : ℕ) : ℚ))
        due_date := sampleDate.addMonths 1
        status := "pending" }
      { installment_number := 2
        amount := round2 (1000 * 1.02 / ((12 : ℕ) : ℚ))
        due_date := sampleDate.addMonths 2
        status := "pending" }
      (by rfl) (by rfl)

/-- C9: `check_overdue_installments` reports exactly the installments
that are `pending` and strictly past due (date-only comparison), in input
order, each annotated with `days_overdue` = whole days from due date to
today; `overdue_count` and `total_overdue_amount` are the count and
amount-sum of exactly those entries, and `has_overdue` says whether any
exists.  (The input list itself is never modified: the embedding is a
pure function, as is the source loop, which only reads `installments`.) -/
theorem C9_overdue_report (insts : List InstallmentRec) (today : Date) :
    (RepaymentCalculator.check_overdue_installments insts today).overdue_installments
      = (insts.filter (fun i => i.status == "pending" && Date.before i.due_date today)).map
          (fun i => { installment_number := i.installment_number
                      amount := i.amount
                      due_date := i.due_date
                      days_overdue := today.toDays - i.due_date.toDays }) ∧
    (∀ e, e ∈ (RepaymentCalculator.check_overdue_installments insts today).overdue_installments
        ↔ ∃ i, i ∈ insts ∧ i.status = "pending" ∧ Date.before i.due_date today = true ∧
            e = { installment_number := i.installment_number
                  amount := i.amount
                  due_date := i.due_date
                  days_overdue := today.toDays - i.due_date.toDays }) ∧
    (RepaymentCalculator.check_overdue_installments insts today).overdue_count
      = (insts.filter
          (fun i => i.status == "pending" && Date.before i.due_date today)).length ∧
    (RepaymentCalculator.check_overdue_installments insts today).total_overdue_amount
      = ((insts.filter (fun i => i.status == "pending" && Date.before i.due_date today)).map
          (fun i => i.amount)).sum ∧
    ((RepaymentCalculator.check_overdue_installments insts today).has_overdue = true
      ↔ ∃ i, i ∈ insts ∧ i.status = "pending" ∧ Date.before i.due_date today = true) := by
  unfold RepaymentCalculator.check_overdue_installments
  dsimp only
  refine ⟨rfl, ?_, ?_, ?_, ?_⟩
  · intro e
    simp only [List.mem_map, List.mem_filter, Bool.and_eq_true, beq_iff_eq]
    constructor
    · rintro ⟨i, ⟨hmem, hst, hbef⟩, heq⟩
      exact ⟨i, hmem, hst, hbef, heq.symm⟩
    · rintro ⟨i, hmem, hst, hbef, heq⟩
      exact ⟨i, ⟨hmem, hst, hbef⟩, heq.symm⟩
  · rw [List.length_map]
  · rw [List.map_map]
    rfl
  · simp only [decide_eq_true_eq, List.length_pos_iff_exists_mem, List.mem_map,
      List.mem_filter, Bool.and_eq_true, beq_iff_eq]
    constructor
    · rintro ⟨a, i, ⟨hmem, hst, hbef⟩, _⟩
      exact ⟨i, hmem, hst, hbef⟩
    · rintro ⟨i, hmem, hst, hbef⟩
      exact ⟨_, i, ⟨hmem, hst, hbef⟩, rfl⟩

/-- Witness for C9 at the spec's example: one pending installment due 10
days before today and one due 10 days after it — exactly one overdue
entry, with `days_overdue = 10`, total 85. -/
theorem C9_witness :
    (RepaymentCalculator.check_overdue_installments overdueSample overdueToday).overdue_count
      = 1 ∧
    (RepaymentCalculator.check_overdue_installments
        overdueSample overdueToday).overdue_installments.map (fun e => e.days_overdue)
      = [10] ∧
    (RepaymentCalculator.check_overdue_installments overdueSample overdueToday).has_overdue
      = true ∧
    (RepaymentCalculator.check_overdue_installments
        overdueSample overdueToday).total_overdue_amount = 85 := by
  have h := C9_overdue_report overdueSample overdueToday
  refine ⟨?_, ?_, ?_, ?_⟩
  · rw [h.2.2.1]
    decide
  · rw [h.1]
    decide
  · exact h.2.2.2.2.mpr
      ⟨{ installment_number := 1, amount := 85,
         due_date := { year := 2024, month := 5, day := 10 }, status := "pending" },
       by decide, by decide, by decide⟩
  · rw [h.2.2.2.1]
    norm_num [overdueSample, overdueToday, Date.before, Date.monthIndex,
      List.filter_cons, List.filter_nil]
